import Mathlib

/-!
Verification of the redis-actor repository's specification against a shallow
embedding of its Rust source.

The embedding follows the source files:
- src/aggregates/redis/mod.rs   (the Redis aggregate: `handle`, `apply`,
  `connect`, the TActor `handler` message loop)
- src/aggregates/redis/command.rs and event.rs (commands and events)
- src/actors/base/state.rs      (the strong/weak shared-state cell)
- src/lib.rs                    (the public facade: insert / query / delete)

External collaborators (the redis cluster client, the r2d2 pool, the bastion
distributor) are modelled as oracles passed in explicitly: each fallible
external call becomes a function argument returning `Except`. A Rust
`.unwrap()` / `.expect(..)` on a failed result is modelled as the distinct
outcome `panic`, kept apart from returned error values.
-/

namespace RedisActor

/-- Connection-readiness state of the aggregate
(src/aggregates/redis/mod.rs, enum RedisState; `Uninitialized` is the
`#[default]` variant). -/
inductive RedisState
  | Uninitialized
  | Initialized
  deriving DecidableEq, Repr

/-- Authentication data of the aggregate
(src/aggregates/redis/mod.rs, enum RedisAuth; `None` is the `#[default]`). -/
inductive RedisAuth
  | None
  | Userpass (username : String) (password : String)
  deriving DecidableEq, Repr

/-- The Redis aggregate (src/aggregates/redis/mod.rs, struct Redis). -/
structure Redis where
  state : RedisState
  urls : List String
  redis_auth : RedisAuth
  deriving DecidableEq, Repr

/-- The `#[derive(Default)]` value of the aggregate: default state
(`Uninitialized`), empty url vector, default auth (`None`). -/
def Redis.default : Redis :=
  { state := RedisState.Uninitialized, urls := [], redis_auth := RedisAuth.None }

/-- Redis::get_state (mod.rs): returns a clone of the current state. -/
def Redis.get_state (self : Redis) : RedisState :=
  self.state

/-- Redis::get_urls (mod.rs): returns a clone of the url list. -/
def Redis.get_urls (self : Redis) : List String :=
  self.urls

/-- Commands of the aggregate (src/aggregates/redis/command.rs). -/
inductive RedisCommand
  | ReconnectRedisServer (urls : List String)
  | ConnectRedisServer (urls : List String)
  deriving DecidableEq, Repr

/-- Events of the aggregate (src/aggregates/redis/event.rs). -/
inductive RedisEvent
  | RedisServerReconnected (urls : List String)
  | RedisServerConnected (urls : List String)
  deriving DecidableEq, Repr

/-- Abstract stand-in for the external `redis::RedisError` type. Its internal
structure is irrelevant to the aggregate's control flow; only which branch of
`Except` it rides in matters. -/
inductive RedisError
  | err (msg : String)
  deriving DecidableEq, Repr

/-- Aggregate::handle (mod.rs lines 124-139): builds an event vector by
pushing exactly one event matching the command, and returns it in `Ok`. -/
def Redis.handle (_self : Redis) (command : RedisCommand) :
    Except RedisError (List RedisEvent) :=
  let events : List RedisEvent :=
    match command with
    | RedisCommand.ReconnectRedisServer urls =>
        [RedisEvent.RedisServerReconnected urls]
    | RedisCommand.ConnectRedisServer urls =>
        [RedisEvent.RedisServerConnected urls]
  Except.ok events

/-- Aggregate::apply (mod.rs lines 141-152): `RedisServerConnected` sets
`state := Initialized` and `urls`; `RedisServerReconnected` sets `urls`
only. -/
def Redis.apply (self : Redis) (event : RedisEvent) : Redis :=
  match event with
  | RedisEvent.RedisServerConnected urls =>
      { self with state := RedisState.Initialized, urls := urls }
  | RedisEvent.RedisServerReconnected urls =>
      { self with urls := urls }

/-- Folding a list of events through `Redis.apply`; the reachable aggregate
values are exactly `applyEvents Redis.default es` for some event list. -/
def applyEvents (self : Redis) (events : List RedisEvent) : Redis :=
  events.foldl Redis.apply self

/-- Delete operation message (mod.rs, struct RedisDelete). -/
structure RedisDelete where
  key : String
  deriving DecidableEq, Repr

/-- Query operation message (mod.rs, struct RedisQuery). -/
structure RedisQuery where
  key : String
  deriving DecidableEq, Repr

/-- Insert operation message (mod.rs, struct RedisInsert); bytes are modelled
as lists of naturals below 256 is not needed, any `List Nat` payload works
identically for the control flow. -/
structure RedisInsert where
  key : String
  value : List Nat
  expire_time : Option Nat
  deriving DecidableEq, Repr

/-- Outcome of a Rust expression that may return a value, return an error, or
panic via `.unwrap()` / `.expect(..)`. -/
inductive Outcome (ε α : Type)
  | ok (a : α)
  | err (e : ε)
  | panic
  deriving DecidableEq, Repr

/-- Abstract stand-in for `redis::cluster::ClusterClient`. -/
inductive ClusterClient
  | client
  deriving DecidableEq, Repr

/-- Abstract stand-in for `redis::cluster::ClusterConnection`. -/
inductive ClusterConnection
  | conn
  deriving DecidableEq, Repr

/-- ManageConnection::connect (mod.rs lines 159-165):
`ClusterClientBuilder::new(self.get_urls()).build().unwrap().get_connection()`.
The `build` step's failure is unwrapped (a panic), while a failure of
`get_connection` is returned as the function's error value. The two external
steps are oracles. -/
def Redis.connect (self : Redis)
    (build : List String → Except RedisError ClusterClient)
    (get_connection : ClusterClient → Except RedisError ClusterConnection) :
    Outcome RedisError ClusterConnection :=
  match build self.get_urls with
  | Except.error _ => Outcome.panic
  | Except.ok cl =>
      match get_connection cl with
      | Except.ok c => Outcome.ok c
      | Except.error e => Outcome.err e

/-- Abstract stand-in for an `r2d2::Pool`. -/
inductive Pool
  | pool
  deriving DecidableEq, Repr

/-- Abstract stand-in for a pooled connection leased from an `r2d2::Pool`. -/
inductive PooledConn
  | conn
  deriving DecidableEq, Repr

/-- Abstract stand-in for `r2d2::Error`. -/
inductive PoolError
  | timedOut
  deriving DecidableEq, Repr

/-- The pool acquisition sequence used both at handler startup (mod.rs lines
196-201) and in the rebuild on a `RedisServerReconnected` event (lines
226-231): `r2d2::Pool::builder()...build(self.clone()).unwrap()` followed by
`pool.get().unwrap()`. Both failures are unwrapped, i.e. panic. -/
def poolAcquire (buildResult : Except PoolError Pool)
    (get : Pool → Except PoolError PooledConn) : Outcome PoolError PooledConn :=
  match buildResult with
  | Except.error _ => Outcome.panic
  | Except.ok p =>
      match get p with
      | Except.error _ => Outcome.panic
      | Except.ok c => Outcome.ok c

/-- Model of a reference-counted cell as produced by the strong/weak handle
pair in src/actors/base/state.rs: `strong` is the number of live strong
handles (the `Arc` strong count); the originating strong handle or any clone
of it is live exactly when `0 < strong`. -/
structure ArcCell (S : Type) where
  strong : Nat
  value : S
  deriving DecidableEq, Repr

/-- Semantics of the standard library's `Weak::upgrade` on which
State::upgrade is built: it yields the cell exactly when some strong handle
is still live, and `none` once the owner is gone. -/
def weakUpgrade {S : Type} (c : ArcCell S) : Option (ArcCell S) :=
  if 0 < c.strong then some c else none

/-- Result of State::upgrade: either a strong handle on the cell, or the
fatal branch reached through the source's explicit panic. -/
inductive UpgradeResult (S : Type)
  | ok (cell : ArcCell S)
  | panicked
  deriving DecidableEq, Repr

/-- State::upgrade (src/actors/base/state.rs lines 52-57): on
`Some(state)` wrap it as a strong handle, on `None` hit the
explicit fatal branch. -/
def State.upgrade {S : Type} (weak : ArcCell S) : UpgradeResult S :=
  match weakUpgrade weak with
  | some state => UpgradeResult.ok state
  | none => UpgradeResult.panicked

/-- Abstract stand-in for `bastion::prelude::SendError`. -/
inductive SendError
  | emptyRecipient
  | disconnected
  deriving DecidableEq, Repr

/-- Log records the facade emits via `error!` (src/lib.rs). -/
inductive LogEffect
  | insertError (e : SendError)
  | deleteError (key : String) (e : SendError)
  deriving DecidableEq, Repr

/-- Facade insert (src/lib.rs lines 26-37): build a RedisInsert, send it with
`tell_one`; on `Ok` do nothing, on `Err(e)` log `error!("insert error: ...")`.
The function returns unit to its caller in both cases. The distributor send
is the `tell_one` oracle. -/
def insert (key : String) (value : List Nat) (expire_time : Option Nat)
    (tell_one : RedisInsert → Except SendError Unit) : Unit × List LogEffect :=
  match tell_one { key := key, value := value, expire_time := expire_time } with
  | Except.ok _ => ((), [])
  | Except.error e => ((), [LogEffect.insertError e])

/-- Facade query (src/lib.rs lines 39-47): request a RedisQuery; the reply is
received with `.expect("couldn't receive reply")` and the final result with
`.unwrap()`, so any send/receive failure is a panic, never an error value
returned to the caller. -/
def query (key : String)
    (request : RedisQuery → Except SendError (List Nat)) :
    Outcome SendError (List Nat) :=
  match request { key := key } with
  | Except.ok v => Outcome.ok v
  | Except.error _ => Outcome.panic

/-- Facade delete (src/lib.rs lines 49-54): build a RedisDelete, send it with
`tell_one`; on `Err(e)` log `error!("Delete key ... failed ...")`. Returns
unit to its caller in both cases. -/
def delete (key : String)
    (tell_one : RedisDelete → Except SendError Unit) : Unit × List LogEffect :=
  match tell_one { key := key } with
  | Except.ok _ => ((), [])
  | Except.error e => ((), [LogEffect.deleteError key e])

/-- The message kinds the handler's MessageHandler chain dispatches on
(mod.rs lines 211-262), in source order: commands, events, queries, inserts,
deletes, and the fallback for anything unmatched (carried here as an opaque
string payload). -/
inductive RedisMsg
  | command (c : RedisCommand)
  | event (e : RedisEvent)
  | query (q : RedisQuery)
  | insert (i : RedisInsert)
  | delete (d : RedisDelete)
  | unmatched (raw : String)
  deriving DecidableEq, Repr

/-- Operations issued against the store through the pooled connection. -/
inductive StoreOp
  | get (key : String)
  | set (key : String) (value : List Nat)
  | expire (key : String) (ttl : Nat)
  | del (key : String)
  deriving DecidableEq, Repr

/-- Observable effects of one message-loop iteration: a `tell_one` of an
event back to the named distributor, a store operation, a reply to a
question, the pool rebuild performed on a Reconnected event, and the
`warn!` log of the fallback arm. -/
inductive Effect
  | send (e : RedisEvent)
  | store (op : StoreOp)
  | reply (data : List Nat)
  | rebuildPool (urls : List String)
  | warnUnknown (raw : String)
  deriving DecidableEq, Repr

/-- One iteration of the TActor handler's message loop (mod.rs lines
211-263). `connGet` is the oracle for `conn.get(key)`; the results of
`conn.set` / `conn.expire` / `conn.del` are discarded by the source
(`let _ : Result<..> = ...`), so only the issued operations are recorded.
The command arm unwraps `self.handle(..)`'s result; since `handle` always
returns `Ok`, the error branch of that unwrap is unreachable. Returns the
aggregate after the iteration and the list of effects in order. -/
def handlerStep (self : Redis)
    (connGet : String → Except RedisError (List Nat)) (msg : RedisMsg) :
    Redis × List Effect :=
  match msg with
  | RedisMsg.command c =>
      let events :=
        match self.handle c with
        | Except.ok evs => evs
        | Except.error _ => []
      (self, events.map Effect.send)
  | RedisMsg.event e =>
      let next := self.apply e
      match e with
      | RedisEvent.RedisServerReconnected _ =>
          (next, [Effect.rebuildPool next.get_urls])
      | RedisEvent.RedisServerConnected _ => (next, [])
  | RedisMsg.query q =>
      match self.get_state with
      | RedisState.Initialized =>
          match connGet q.key with
          | Except.ok data =>
              (self, [Effect.store (StoreOp.get q.key), Effect.reply data])
          | Except.error _ => (self, [Effect.store (StoreOp.get q.key)])
      | RedisState.Uninitialized => (self, [])
  | RedisMsg.insert i =>
      match self.get_state with
      | RedisState.Initialized =>
          (self,
            Effect.store (StoreOp.set i.key i.value) ::
              (match i.expire_time with
               | some exp => [Effect.store (StoreOp.expire i.key exp)]
               | none => []))
      | RedisState.Uninitialized => (self, [])
  | RedisMsg.delete d =>
      match self.get_state with
      | RedisState.Initialized => (self, [Effect.store (StoreOp.del d.key)])
      | RedisState.Uninitialized => (self, [])
  | RedisMsg.unmatched raw => (self, [Effect.warnUnknown raw])

/-- The message loop run over a finite prefix of the delivered messages: the
source's `loop` has no break, so processing a list of messages is the fold of
`handlerStep`. -/
def runLoop (connGet : String → Except RedisError (List Nat)) :
    Redis → List RedisMsg → Redis × List Effect
  | self, [] => (self, [])
  | self, m :: rest =>
      let step := handlerStep self connGet m
      let tail := runLoop connGet step.1 rest
      (tail.1, step.2 ++ tail.2)

/-! Theorems settling the claims. -/

/-- C1: applying RedisServerConnected with urls L to an aggregate whose state
is Uninitialized sets state to Initialized and urls to L; applying
RedisServerReconnected with urls L to an Initialized aggregate sets urls to L
and the state remains Initialized. -/
theorem C1_apply_transitions (r₁ r₂ : Redis) (L : List String)
    (_h₁ : r₁.state = RedisState.Uninitialized)
    (h₂ : r₂.state = RedisState.Initialized) :
    (r₁.apply (RedisEvent.RedisServerConnected L)).state = RedisState.Initialized ∧
    (r₁.apply (RedisEvent.RedisServerConnected L)).urls = L ∧
    (r₂.apply (RedisEvent.RedisServerReconnected L)).urls = L ∧
    (r₂.apply (RedisEvent.RedisServerReconnected L)).state = RedisState.Initialized :=
  ⟨rfl, rfl, rfl, h₂⟩

/-- Witness for C1 at a concrete Uninitialized and a concrete Initialized
aggregate. -/
theorem C1_apply_transitions_witness :
    (Redis.apply
        { state := RedisState.Uninitialized, urls := [], redis_auth := RedisAuth.None }
        (RedisEvent.RedisServerConnected ["redis://a"])).state = RedisState.Initialized ∧
    (Redis.apply
        { state := RedisState.Uninitialized, urls := [], redis_auth := RedisAuth.None }
        (RedisEvent.RedisServerConnected ["redis://a"])).urls = ["redis://a"] ∧
    (Redis.apply
        { state := RedisState.Initialized, urls := ["redis://b"], redis_auth := RedisAuth.None }
        (RedisEvent.RedisServerReconnected ["redis://a"])).urls = ["redis://a"] ∧
    (Redis.apply
        { state := RedisState.Initialized, urls := ["redis://b"], redis_auth := RedisAuth.None }
        (RedisEvent.RedisServerReconnected ["redis://a"])).state = RedisState.Initialized :=
  C1_apply_transitions
    { state := RedisState.Uninitialized, urls := [], redis_auth := RedisAuth.None }
    { state := RedisState.Initialized, urls := ["redis://b"], redis_auth := RedisAuth.None }
    ["redis://a"] rfl rfl

/-- C2: the command handler is deterministic and total: ConnectRedisServer
yields Ok of exactly the one-element list with RedisServerConnected,
ReconnectRedisServer yields Ok of exactly RedisServerReconnected, and every
command yields Ok of exactly one event (never zero or several, never an
error). -/
theorem C2_handle_deterministic_total (r : Redis) (L : List String) :
    r.handle (RedisCommand.ConnectRedisServer L) =
      Except.ok [RedisEvent.RedisServerConnected L] ∧
    r.handle (RedisCommand.ReconnectRedisServer L) =
      Except.ok [RedisEvent.RedisServerReconnected L] ∧
    ∀ c : RedisCommand, ∃ e : RedisEvent, r.handle c = Except.ok [e] := by
  refine ⟨rfl, rfl, ?_⟩
  intro c
  cases c with
  | ReconnectRedisServer urls => exact ⟨RedisEvent.RedisServerReconnected urls, rfl⟩
  | ConnectRedisServer urls => exact ⟨RedisEvent.RedisServerConnected urls, rfl⟩

/-- C3 counterexample: the default initial aggregate value is reachable (it
is `applyEvents Redis.default []`) and its url list is empty, so the claimed
invariant that every reachable value has non-empty urls is false. -/
theorem C3_counterexample :
    applyEvents Redis.default [] = Redis.default ∧
    ¬ (Redis.default).urls ≠ [] :=
  ⟨rfl, fun h => h rfl⟩

/-- Helper for C3: the state of an aggregate after folding events is
Initialized exactly when it started Initialized or some RedisServerConnected
event occurs in the list. -/
theorem applyEvents_state_initialized (es : List RedisEvent) :
    ∀ r : Redis,
      ((applyEvents r es).state = RedisState.Initialized ↔
        (r.state = RedisState.Initialized ∨
          ∃ L, RedisEvent.RedisServerConnected L ∈ es)) := by
  induction es with
  | nil =>
      intro r
      simp [applyEvents]
  | cons e rest ih =>
      intro r
      cases e with
      | RedisServerConnected L =>
          have h := ih (r.apply (RedisEvent.RedisServerConnected L))
          simp only [applyEvents, List.foldl] at h ⊢
          rw [h]
          simp [Redis.apply]
      | RedisServerReconnected L =>
          have h := ih (r.apply (RedisEvent.RedisServerReconnected L))
          simp only [applyEvents, List.foldl] at h ⊢
          rw [h]
          simp [Redis.apply]

/-- C3 amended: the default initial value has empty urls, so non-emptiness of
urls is not an invariant; what holds of every reachable value (the default
value with any event list applied) is that its state is Initialized exactly
when at least one RedisServerConnected event has been applied — the
aggregate's state field, not the pure state machine, carries no record of
pool construction, which is a side effect performed in the handler. -/
theorem C3_amended_reachable_initialized (es : List RedisEvent) :
    (applyEvents Redis.default es).state = RedisState.Initialized ↔
      ∃ L, RedisEvent.RedisServerConnected L ∈ es := by
  have h := applyEvents_state_initialized es Redis.default
  simpa [Redis.default] using h

/-- C4 counterexample: when the cluster-client build step fails inside
Redis::connect, the outcome is a panic (the source unwraps the build result),
not a connection-manager error value — contradicting the claim that for
every url list a pool-construction failure is propagated to the caller as an
error value and never as a panic. -/
theorem C4_counterexample :
    Redis.connect
        { state := RedisState.Uninitialized, urls := ["redis://bad"],
          redis_auth := RedisAuth.None }
        (fun _ => Except.error (RedisError.err "cluster build failed"))
        (fun _ => Except.ok ClusterConnection.conn) = Outcome.panic :=
  rfl

/-- C4 amended: building may indeed fail, but only a failure of the
`get_connection` step inside Redis::connect is returned as an error value;
a failure of the cluster-client build step in connect, and any failure of
pool construction or of leasing the initial connection — the sequence run
both at handler startup and in the rebuild on a RedisServerReconnected
event — surface as panics through `.unwrap()`. -/
theorem C4_amended_failure_modes (r : Redis) (e : RedisError)
    (cl : ClusterClient) (c : ClusterConnection) (p : Pool)
    (pc : PooledConn) (pe : PoolError) :
    r.connect (fun _ => Except.error e) (fun _ => Except.ok c) = Outcome.panic ∧
    r.connect (fun _ => Except.ok cl) (fun _ => Except.error e) = Outcome.err e ∧
    r.connect (fun _ => Except.ok cl) (fun _ => Except.ok c) = Outcome.ok c ∧
    poolAcquire (Except.error pe) (fun _ => Except.ok pc) = Outcome.panic ∧
    poolAcquire (Except.ok p) (fun _ => Except.error pe) = Outcome.panic ∧
    poolAcquire (Except.ok p) (fun _ => Except.ok pc) = Outcome.ok pc :=
  ⟨rfl, rfl, rfl, rfl, rfl, rfl⟩

/-- C5: State::upgrade yields a strong handle on the same underlying cell
exactly when some strong handle is still live (the strong count is
positive); when the owner is fully destroyed (strong count zero) it reaches
the fatal panic branch rather than returning a recoverable error value; and
under the precondition that the owner is live the fatal branch is
unreachable. -/
theorem C5_upgrade_liveness (S : Type) (c : ArcCell S) :
    (State.upgrade c = UpgradeResult.ok c ↔ 0 < c.strong) ∧
    (c.strong = 0 → State.upgrade c = UpgradeResult.panicked) ∧
    (0 < c.strong → State.upgrade c ≠ UpgradeResult.panicked) := by
  unfold State.upgrade weakUpgrade
  by_cases h : 0 < c.strong
  · simp [h]
    omega
  · simp [h]

/-- Witness for C5 on a concrete live cell and a concrete dead cell. -/
theorem C5_upgrade_liveness_witness :
    ((State.upgrade (⟨1, 7⟩ : ArcCell Nat) = UpgradeResult.ok ⟨1, 7⟩ ↔
        0 < (⟨1, 7⟩ : ArcCell Nat).strong) ∧
      ((⟨1, 7⟩ : ArcCell Nat).strong = 0 →
        State.upgrade (⟨1, 7⟩ : ArcCell Nat) = UpgradeResult.panicked) ∧
      (0 < (⟨1, 7⟩ : ArcCell Nat).strong →
        State.upgrade (⟨1, 7⟩ : ArcCell Nat) ≠ UpgradeResult.panicked)) ∧
    State.upgrade (⟨0, 7⟩ : ArcCell Nat) = UpgradeResult.panicked :=
  ⟨C5_upgrade_liveness Nat ⟨1, 7⟩, (C5_upgrade_liveness Nat ⟨0, 7⟩).2.1 rfl⟩

/-- C6: in the message loop, a Query message produces a reply, carrying the
raw value the lookup returned, exactly when the state is Initialized and the
lookup through the pooled connection succeeds; when the state is
Uninitialized no effect at all is produced, and when the lookup fails no
reply of any kind is sent. -/
theorem C6_query_reply (r : Redis)
    (connGet : String → Except RedisError (List Nat)) (q : RedisQuery) :
    (∀ d, Effect.reply d ∈ (handlerStep r connGet (RedisMsg.query q)).2 ↔
        (r.state = RedisState.Initialized ∧ connGet q.key = Except.ok d)) ∧
    (r.state = RedisState.Uninitialized →
        (handlerStep r connGet (RedisMsg.query q)).2 = []) ∧
    (∀ e, connGet q.key = Except.error e →
        ∀ d, Effect.reply d ∉ (handlerStep r connGet (RedisMsg.query q)).2) := by
  rcases r with ⟨st, urls, auth⟩
  cases st with
  | Uninitialized =>
      refine ⟨fun d => ?_, fun _ => rfl, fun e _ d => ?_⟩
      · simp [handlerStep, Redis.get_state]
      · simp [handlerStep, Redis.get_state]
  | Initialized =>
      cases hg : connGet q.key with
      | ok data =>
          refine ⟨?_, ?_, ?_⟩
          · intro d
            simp only [handlerStep, Redis.get_state, hg]
            constructor
            · intro hm
              rcases List.mem_cons.mp hm with h1 | h1
              · cases h1
              · have h2 := List.mem_singleton.mp h1
                injection h2 with h3
                subst h3
                constructor <;> trivial
            · rintro ⟨-, hok⟩
              injection hok with h3
              subst h3
              simp
          · intro hc
            cases hc
          · intro e he d
            cases he
      | error err =>
          refine ⟨?_, ?_, ?_⟩
          · intro d
            simp [handlerStep, Redis.get_state, hg]
          · intro hc
            cases hc
          · intro e _ d
            simp [handlerStep, Redis.get_state, hg]

/-- Witness for C6: on a concrete Initialized aggregate whose lookup oracle
succeeds with the bytes [104, 105], a reply carrying exactly those bytes is
sent. -/
theorem C6_query_reply_witness :
    Effect.reply [104, 105] ∈
      (handlerStep
        { state := RedisState.Initialized, urls := ["redis://a"],
          redis_auth := RedisAuth.None }
        (fun _ => (Except.ok [104, 105] : Except RedisError (List Nat)))
        (RedisMsg.query { key := "k" })).2 :=
  ((C6_query_reply
      { state := RedisState.Initialized, urls := ["redis://a"],
        redis_auth := RedisAuth.None }
      (fun _ => (Except.ok [104, 105] : Except RedisError (List Nat)))
      { key := "k" }).1 [104, 105]).mpr ⟨rfl, rfl⟩

/-- C7: an Insert, Query or Delete message delivered while the state is
Uninitialized is silently ignored: the handler iteration issues no store
operation, sends no reply, produces no effect at all, and leaves every field
of the aggregate unchanged. -/
theorem C7_uninitialized_ops_ignored (r : Redis)
    (connGet : String → Except RedisError (List Nat))
    (i : RedisInsert) (q : RedisQuery) (d : RedisDelete)
    (h : r.state = RedisState.Uninitialized) :
    handlerStep r connGet (RedisMsg.insert i) = (r, []) ∧
    handlerStep r connGet (RedisMsg.query q) = (r, []) ∧
    handlerStep r connGet (RedisMsg.delete d) = (r, []) := by
  rcases r with ⟨st, urls, auth⟩
  cases st
  · exact ⟨rfl, rfl, rfl⟩
  · cases h

/-- Witness for C7 on the default (Uninitialized) aggregate. -/
theorem C7_uninitialized_ops_ignored_witness :
    handlerStep Redis.default (fun _ => Except.ok [])
        (RedisMsg.insert { key := "k", value := [1], expire_time := some 9 }) =
      (Redis.default, []) ∧
    handlerStep Redis.default (fun _ => Except.ok [])
        (RedisMsg.query { key := "k" }) = (Redis.default, []) ∧
    handlerStep Redis.default (fun _ => Except.ok [])
        (RedisMsg.delete { key := "k" }) = (Redis.default, []) :=
  C7_uninitialized_ops_ignored Redis.default (fun _ => Except.ok [])
    { key := "k", value := [1], expire_time := some 9 } { key := "k" }
    { key := "k" } rfl

/-- C8 counterexample: a failing send inside the facade insert is not
reported to the caller — the caller-visible return value after a failed send
is the same unit value as after a successful send, the error going only to
the log. -/
theorem C8_counterexample :
    (insert "key" [104] none (fun _ => Except.error SendError.emptyRecipient)).1 =
      (insert "key" [104] none (fun _ => Except.ok ())).1 ∧
    (insert "key" [104] none (fun _ => Except.error SendError.emptyRecipient)).2 =
      [LogEffect.insertError SendError.emptyRecipient] :=
  ⟨rfl, rfl⟩

/-- C8 amended: each facade operation translates directly to the
corresponding message send, and a failing send is never silently dropped —
but it is not reported to the caller as an error value for insert and
delete, which log the error and return unit exactly as in the success case,
while for query a failing send or receive surfaces as a panic in the
caller. -/
theorem C8_amended_send_errors (key : String) (value : List Nat)
    (exp : Option Nat) (e : SendError) (v : List Nat) :
    insert key value exp (fun _ => Except.error e) =
      ((), [LogEffect.insertError e]) ∧
    insert key value exp (fun _ => Except.ok ()) = ((), []) ∧
    delete key (fun _ => Except.error e) = ((), [LogEffect.deleteError key e]) ∧
    delete key (fun _ => Except.ok ()) = ((), []) ∧
    query key (fun _ => Except.error e) = Outcome.panic ∧
    query key (fun _ => Except.ok v) = Outcome.ok v :=
  ⟨rfl, rfl, rfl, rfl, rfl, rfl⟩

/-- C9: an unmatched message is only logged: the handler iteration leaves the
aggregate unchanged and produces nothing but the warning log, and running the
loop on an unmatched message followed by any further messages processes those
further messages exactly as if the loop had started at them — the unmatched
message neither terminates the loop nor signals failure. -/
theorem C9_unmatched_logged_loop_continues (r : Redis)
    (connGet : String → Except RedisError (List Nat)) (raw : String)
    (rest : List RedisMsg) :
    handlerStep r connGet (RedisMsg.unmatched raw) =
      (r, [Effect.warnUnknown raw]) ∧
    runLoop connGet r (RedisMsg.unmatched raw :: rest) =
      ((runLoop connGet r rest).1,
        Effect.warnUnknown raw :: (runLoop connGet r rest).2) := by
  refine ⟨rfl, ?_⟩
  simp [runLoop, handlerStep]

/-- C10: applying any event never changes the redis_auth field, and applying
RedisServerReconnected leaves the state field exactly as it was for every
starting state — in particular it leaves an Uninitialized aggregate
Uninitialized rather than promoting it to Initialized. -/
theorem C10_apply_frame (r : Redis) (e : RedisEvent) (L : List String) :
    (r.apply e).redis_auth = r.redis_auth ∧
    (r.apply (RedisEvent.RedisServerReconnected L)).state = r.state ∧
    (r.state = RedisState.Uninitialized →
      (r.apply (RedisEvent.RedisServerReconnected L)).state =
        RedisState.Uninitialized) := by
  refine ⟨?_, rfl, fun h => h⟩
  cases e <;> rfl

/-- Witness for C10 on the default aggregate with a concrete event. -/
theorem C10_apply_frame_witness :
    (Redis.default.apply (RedisEvent.RedisServerConnected ["redis://a"])).redis_auth =
      Redis.default.redis_auth ∧
    (Redis.default.apply (RedisEvent.RedisServerReconnected ["redis://b"])).state =
      Redis.default.state ∧
    (Redis.default.state = RedisState.Uninitialized →
      (Redis.default.apply (RedisEvent.RedisServerReconnected ["redis://b"])).state =
        RedisState.Uninitialized) :=
  C10_apply_frame Redis.default (RedisEvent.RedisServerConnected ["redis://a"])
    ["redis://b"]

end RedisActor
